import Mathlib

/-!
Shallow embedding of the `weak_symbol_example` repository.

The repository defines a small polymorphic class hierarchy
(`IBaseObject` → `AbstractWorker` → `SharedWorker` / `TemplatedWorker<T>`)
in headers included by two independently compiled units (the host executable
and the shared library), and a set of verifier functions that check that the
runtime type information of the two copies unifies via weak-symbol linkage.

The embedding takes the one-definition view that weak-symbol merging is
intended to produce (and that the repository's tests verify empirically):
there is a single definition of every class, of its RTTI descriptor, and of
`dynamic_cast`, shared by both units.  Per-unit facts (the origin strings the
factories pass, and the two units' distinct weak function bodies) are embedded
separately, exactly as they appear in the two translation units.

Virtual methods are embedded as Lean functions that dispatch on the dynamic
variant of the object, which is how a unified vtable behaves.  Output written
to `std::cout` is embedded as the list of produced lines.  Raw pointers that
may be null are embedded as `Option Obj`.  `TemplatedWorker<T>::getValue`
reads the address of its `m_data` member, so templated objects carry the
address the allocator chose for that member as an extra component.
-/

namespace WeakSymbolExample

/-- The two independently compiled units of the example: the host executable
(`src/host_implementation.cpp`, `src/main.cpp`) and the dynamic library
(`lib/shared_library.cpp`). -/
inductive CompUnit
  | host
  | dll
deriving DecidableEq

/-- The dynamic (runtime) types of the concrete polymorphic classes of
`include/shared_class.h`: `SharedWorker` and the two explicitly instantiated
specializations `TemplatedWorker<int>` and `TemplatedWorker<std::string>`. -/
inductive Variant
  | sharedWorker
  | templatedInt
  | templatedString
deriving DecidableEq

/-- An object of one of the concrete classes.  `SharedWorker` stores
`m_value : int` and `m_source : std::string`; `TemplatedWorker<T>` stores
`m_data : T` and `m_source : std::string`.  Because
`TemplatedWorker<T>::getValue` returns the address of `m_data` cast to `int`,
templated objects additionally carry `dataAddr`, the address at which the
allocator placed the `m_data` member of this instance. -/
inductive Obj
  | sharedWorker (value : Int) (source : String)
  | templatedInt (data : Int) (source : String) (dataAddr : Nat)
  | templatedString (data : String) (source : String) (dataAddr : Nat)
deriving DecidableEq

/-- The dynamic type of an object, i.e. what `typeid(*obj)` identifies. -/
def Obj.variant : Obj → Variant
  | .sharedWorker .. => .sharedWorker
  | .templatedInt .. => .templatedInt
  | .templatedString .. => .templatedString

/-- `typeid(int).name()` under the Itanium C++ ABI used on the macOS target
(`main.cpp` prints `Platform: macOS`).  Only its distinctness from the
`std::string` name matters to the development. -/
def cxxTypeidNameInt : String := "i"

/-- `typeid(std::string).name()` under the Itanium ABI with libc++
(mangling of `std::__2::basic_string<char, char_traits<char>, allocator<char>>`).
Only its distinctness from `"i"` matters to the development. -/
def cxxTypeidNameStdString : String :=
  "NSt3__212basic_stringIcNS_11char_traitsIcEENS_9allocatorIcEEEE"

/-- `typeid(*obj).name()` for each dynamic type: the Itanium-mangled class
names.  Weak-symbol unification makes the name string a function of the
dynamic type alone, identical from both units; only per-variant stability and
pairwise distinctness are relied on below. -/
def typeidName : Variant → String
  | .sharedWorker => "N17WeakSymbolExample12SharedWorkerE"
  | .templatedInt => "N17WeakSymbolExample15TemplatedWorkerIiEE"
  | .templatedString =>
      "N17WeakSymbolExample15TemplatedWorkerI" ++ cxxTypeidNameStdString ++ "EE"

/-- `static_cast<int>` of a (nonnegative) `intptr_t` address: truncation to a
32-bit two's-complement value. -/
def toInt32 (a : Nat) : Int :=
  if a % 2 ^ 32 < 2 ^ 31 then ((a % 2 ^ 32 : Nat) : Int)
  else ((a % 2 ^ 32 : Nat) : Int) - 2 ^ 32

/-- Virtual `getTypeName`, dispatching to the overrides of
`shared_class.h`: `SharedWorker` returns `"SharedWorker"`,
`TemplatedWorker<T>` returns `"TemplatedWorker<" + typeid(T).name() + ">"`. -/
def getTypeName : Obj → String
  | .sharedWorker .. => "SharedWorker"
  | .templatedInt .. => "TemplatedWorker<" ++ cxxTypeidNameInt ++ ">"
  | .templatedString .. => "TemplatedWorker<" ++ cxxTypeidNameStdString ++ ">"

/-- Virtual `getValue`: `SharedWorker` returns `m_value`;
`TemplatedWorker<T>` returns
`static_cast<int>(reinterpret_cast<intptr_t>(&m_data))`, the truncated
address of its data member. -/
def getValue : Obj → Int
  | .sharedWorker v _ => v
  | .templatedInt _ _ a => toInt32 a
  | .templatedString _ _ a => toInt32 a

/-- Virtual `getDescription`, dispatching to the overrides of
`shared_class.h` (stream formatting of the members). -/
def getDescription : Obj → String
  | .sharedWorker v s =>
      "SharedWorker created from " ++ s ++ " with value " ++ toString v
  | .templatedInt d s _ =>
      "TemplatedWorker from " ++ s ++ " with data: " ++ toString d
  | .templatedString d s _ =>
      "TemplatedWorker from " ++ s ++ " with data: " ++ d

/-- Virtual `isReady`: `SharedWorker` overrides it to `m_value > 0`;
`TemplatedWorker<T>` declares no override, so it inherits
`AbstractWorker::isReady`, which returns `true`. -/
def isReady : Obj → Bool
  | .sharedWorker v _ => decide (v > 0)
  | .templatedInt .. => true
  | .templatedString .. => true

/-- The body of the override `SharedWorker::performAction`, as the line it
writes to `std::cout`. -/
def SharedWorker.performAction (value : Int) (source : String) : List String :=
  ["SharedWorker::performAction() called from " ++ source ++ " with value "
    ++ toString value]

/-- The body of the override `TemplatedWorker<T>::performAction`, as the line
it writes to `std::cout` (the body uses only `m_source`). -/
def TemplatedWorker.performAction (source : String) : List String :=
  ["TemplatedWorker::performAction() from " ++ source]

/-- Virtual `performAction` invoked through a base reference: the unified
vtable dispatches on the dynamic variant to the corresponding override. -/
def performAction : Obj → List String
  | .sharedWorker v s => SharedWorker.performAction v s
  | .templatedInt _ s _ => TemplatedWorker.performAction s
  | .templatedString _ s _ => TemplatedWorker.performAction s

/-- Host factory `createHostSharedWorker` (host_implementation.cpp):
`make_unique<SharedWorker>(value, "HOST")`. -/
def createHostSharedWorker (value : Int) : Obj := .sharedWorker value "HOST"

/-- DLL factory `createDLLSharedWorker` (shared_library.cpp):
`make_unique<SharedWorker>(value, "DLL")`. -/
def createDLLSharedWorker (value : Int) : Obj := .sharedWorker value "DLL"

/-- Host factory `createHostBaseObject`:
`make_unique<SharedWorker>(value, "HOST-BaseObject")`. -/
def createHostBaseObject (value : Int) : Obj :=
  .sharedWorker value "HOST-BaseObject"

/-- DLL factory `createDLLBaseObject`:
`make_unique<SharedWorker>(value, "DLL-BaseObject")`. -/
def createDLLBaseObject (value : Int) : Obj :=
  .sharedWorker value "DLL-BaseObject"

/-- Host factory `createHostTemplatedWorkerInt`; `addr` is the address the
allocator chose for the new instance's `m_data` member. -/
def createHostTemplatedWorkerInt (value : Int) (addr : Nat) : Obj :=
  .templatedInt value "HOST" addr

/-- DLL factory `createDLLTemplatedWorkerInt`. -/
def createDLLTemplatedWorkerInt (value : Int) (addr : Nat) : Obj :=
  .templatedInt value "DLL" addr

/-- Host factory `createHostTemplatedWorkerString`. -/
def createHostTemplatedWorkerString (value : String) (addr : Nat) : Obj :=
  .templatedString value "HOST" addr

/-- DLL factory `createDLLTemplatedWorkerString`. -/
def createDLLTemplatedWorkerString (value : String) (addr : Nat) : Obj :=
  .templatedString value "DLL" addr

/-- C interface factory `create_dll_object_c`:
`new SharedWorker(value, "DLL-C-Interface")`. -/
def create_dll_object_c (value : Int) : Obj :=
  .sharedWorker value "DLL-C-Interface"

/-- Same-runtime-type judgement of the test suite
(`CrossBoundaryTypeUnification`): `EXPECT_STREQ` on the two descriptors'
`name()` strings, never on descriptor object identity. -/
def sameRuntimeType (a b : Obj) : Bool :=
  typeidName a.variant == typeidName b.variant

/-- The static target types of the `dynamic_cast` expressions appearing in
the repository. -/
inductive CastTarget
  | abstractWorker
  | toSharedWorker
  | toTemplatedInt
  | toTemplatedString
deriving DecidableEq

/-- The cast target that names each concrete variant. -/
def concreteTarget : Variant → CastTarget
  | .sharedWorker => .toSharedWorker
  | .templatedInt => .toTemplatedInt
  | .templatedString => .toTemplatedString

/-- `dynamic_cast<T*>(obj)` for non-null `obj` against the unified RTTI:
every concrete variant derives `AbstractWorker`, so that cast always
succeeds; a cast to a concrete class succeeds exactly when it is the
object's dynamic type, and yields the same object as the target type. -/
def dynamicCast : CastTarget → Obj → Option Obj
  | .abstractWorker, o => some o
  | .toSharedWorker, o =>
      if o.variant = .sharedWorker then some o else none
  | .toTemplatedInt, o =>
      if o.variant = .templatedInt then some o else none
  | .toTemplatedString, o =>
      if o.variant = .templatedString then some o else none

/-- A `dynamic_cast` as compiled into a given unit.  Both units' compiled
casts resolve against the same weak-symbol-unified type descriptors (the
property the repository verifies), so the performing unit does not enter the
result. -/
def dynamicCastIn (_ : CompUnit) (t : CastTarget) (o : Obj) : Option Obj :=
  dynamicCast t o

/-- One report line of `testDynamicCast` in shared_library.cpp. -/
def castResultLine (label : String) (r : Option Obj) : String :=
  "  -> dynamic_cast<" ++ label ++ "*>: "
    ++ (if r.isSome then "SUCCESS" else "FAILED")

/-- DLL verifier `testDynamicCast` (shared_library.cpp): returns `false` at
once on a null pointer; otherwise performs the four casts, reports each, and
returns whether the cast to `AbstractWorker` succeeded.  Result: the returned
boolean and the produced output lines. -/
def testDynamicCast : Option Obj → Bool × List String
  | none => (false, [])
  | some o =>
      let worker := dynamicCastIn .dll .abstractWorker o
      let sharedW := dynamicCastIn .dll .toSharedWorker o
      let tInt := dynamicCastIn .dll .toTemplatedInt o
      let tStr := dynamicCastIn .dll .toTemplatedString o
      (worker.isSome,
        ["DLL: Testing dynamic_cast operations...",
         castResultLine "AbstractWorker" worker,
         castResultLine "SharedWorker" sharedW,
         castResultLine "TemplatedWorker<int>" tInt,
         castResultLine "TemplatedWorker<string>" tStr])

/-- Host verifier `testHostDynamicCast` (host_implementation.cpp): same
casts, no output; the discarded casts are omitted and the returned boolean is
whether the cast to `AbstractWorker` succeeded. -/
def testHostDynamicCast : Option Obj → Bool
  | none => false
  | some o => (dynamicCastIn .host .abstractWorker o).isSome

/-- Lowercase hexadecimal rendering of a natural number, as `std::hex`
produces. -/
def hexString (n : Nat) : String := String.mk (Nat.toDigits 16 n)

/-- DLL verifier `getTypeInfo` (shared_library.cpp), parametrized by the
platform's `type_info::hash_code` assignment `h` (unified across units along
with the descriptors): `"null"` on a null pointer, otherwise
`"Type: <name> (hash_code: 0x<hex>)"`. -/
def getTypeInfo (h : Variant → Nat) : Option Obj → String
  | none => "null"
  | some o =>
      "Type: " ++ typeidName o.variant ++ " (hash_code: 0x"
        ++ hexString (h o.variant) ++ ")"

/-- Host verifier `getHostTypeInfo` (host_implementation.cpp): a duplicated
definition with the same body as `getTypeInfo`. -/
def getHostTypeInfo (h : Variant → Nat) : Option Obj → String
  | none => "null"
  | some o =>
      "Type: " ++ typeidName o.variant ++ " (hash_code: 0x"
        ++ hexString (h o.variant) ++ ")"

/-- DLL `printObjectInfo` (shared_library.cpp): the lines it writes; on a
null pointer it reports and returns normally. -/
def printObjectInfo (h : Variant → Nat) : Option Obj → List String
  | none => ["DLL: Object is null"]
  | some o =>
      ["DLL: Object Information:",
       "  Type Name: " ++ getTypeName o,
       "  Description: " ++ getDescription o,
       "  Value: " ++ toString (getValue o),
       "  RTTI Info: " ++ getTypeInfo h (some o),
       "  Calling performAction():"] ++ performAction o

/-- C interface `test_dynamic_cast_c`: `testDynamicCast(obj) ? 1 : 0`. -/
def test_dynamic_cast_c (o : Option Obj) : Int :=
  if (testDynamicCast o).1 then 1 else 0

/-- C interface `get_type_name_c`: a null pointer on null input, otherwise
`typeid(*obj).name()`. -/
def get_type_name_c : Option Obj → Option String
  | none => none
  | some o => some (typeidName o.variant)

/-- C interface `print_object_info_c`: delegates to `printObjectInfo`. -/
def print_object_info_c (h : Variant → Nat) (o : Option Obj) : List String :=
  printObjectInfo h o

/-- C interface `destroy_dll_object_c`: `delete obj`, a no-op on null and a
(virtual) destructor call otherwise; it produces no output and always returns
normally. -/
def destroy_dll_object_c (_ : Option Obj) : PUnit := .unit

namespace Internal

/-- The DLL's weak definition of `Internal::getSharedFunctionResult`
(shared_library.cpp). -/
def getSharedFunctionResultDLL : String := "Shared function result from DLL"

/-- The host's weak definition of `Internal::getSharedFunctionResult`
(host_implementation.cpp). -/
def getSharedFunctionResultHOST : String := "Shared function result from HOST"

/-- The DLL's weak definition of `Internal::performSharedOperation`, as the
line it writes. -/
def performSharedOperationDLL (value : Int) : List String :=
  ["DLL: Performing shared operation with value: " ++ toString value]

/-- The host's weak definition of `Internal::performSharedOperation`. -/
def performSharedOperationHOST (value : Int) : List String :=
  ["HOST: Performing shared operation with value: " ++ toString value]

end Internal

/-- Replace only the `m_source` origin tag of an object, leaving the payload
and the data-member address unchanged. -/
def withSource : Obj → String → Obj
  | .sharedWorker v _, s => .sharedWorker v s
  | .templatedInt d _ a, s => .templatedInt d s a
  | .templatedString d _ a, s => .templatedString d s a

/-- C1: any two instances of the same concrete variant — in particular one
created in each of the two units — report equal `typeName()` strings, and the
same-runtime-type judgement, made on type-descriptor name-string equality,
is true for the pair. -/
theorem crossUnitTypeNameUnification (o1 o2 : Obj)
    (h : o1.variant = o2.variant) :
    getTypeName o1 = getTypeName o2 ∧ sameRuntimeType o1 o2 = true := by
  cases o1 <;> cases o2 <;>
    simp_all [Obj.variant, getTypeName, sameRuntimeType, typeidName]

/-- Witness for C1 at the fixed scenario of the test suite: a `SharedWorker`
created by the host factory and one created by the DLL factory. -/
theorem crossUnitTypeNameUnification_witness :
    getTypeName (createHostSharedWorker 500)
        = getTypeName (createDLLSharedWorker 600)
      ∧ sameRuntimeType (createHostSharedWorker 500)
        (createDLLSharedWorker 600) = true :=
  crossUnitTypeNameUnification (createHostSharedWorker 500)
    (createDLLSharedWorker 600) rfl

/-- C2: for any two instances of the same concrete variant, the checked cast
to that variant succeeds in both directions, whichever unit's compiled cast
performs it, and yields the cast object itself. -/
theorem crossCastBothDirections (u1 u2 : CompUnit) (o1 o2 : Obj)
    (h : o1.variant = o2.variant) :
    dynamicCastIn u1 (concreteTarget o1.variant) o2 = some o2 ∧
    dynamicCastIn u2 (concreteTarget o2.variant) o1 = some o1 := by
  cases o1 <;> cases o2 <;>
    simp_all [Obj.variant, dynamicCastIn, dynamicCast, concreteTarget]

/-- Witness for C2 at the fixed scenario: the host-compiled cast applied to
the DLL-created `SharedWorker` and the DLL-compiled cast applied to the
host-created one. -/
theorem crossCastBothDirections_witness :
    dynamicCastIn .host (concreteTarget (createHostSharedWorker 500).variant)
        (createDLLSharedWorker 600) = some (createDLLSharedWorker 600)
      ∧ dynamicCastIn .dll
        (concreteTarget (createDLLSharedWorker 600).variant)
        (createHostSharedWorker 500) = some (createHostSharedWorker 500) :=
  crossCastBothDirections .host .dll (createHostSharedWorker 500)
    (createDLLSharedWorker 600) rfl

/-- C5: casting an instance of variant X to a different variant Y yields the
null result, in either unit; moreover `TemplatedWorker<int>(123)` and
`TemplatedWorker<std::string>("test")` have differing `typeName()` strings
and each cross-casts successfully only to its own variant. -/
theorem castWrongVariantIsNull (u : CompUnit) (o : Obj) (v : Variant)
    (h : o.variant ≠ v) :
    dynamicCastIn u (concreteTarget v) o = none
      ∧ getTypeName (createHostTemplatedWorkerInt 123 4096)
        ≠ getTypeName (createHostTemplatedWorkerString "test" 8192)
      ∧ dynamicCastIn u (concreteTarget .templatedInt)
        (createHostTemplatedWorkerInt 123 4096)
        = some (createHostTemplatedWorkerInt 123 4096)
      ∧ dynamicCastIn u (concreteTarget .templatedString)
        (createHostTemplatedWorkerInt 123 4096) = none
      ∧ dynamicCastIn u (concreteTarget .templatedString)
        (createHostTemplatedWorkerString "test" 8192)
        = some (createHostTemplatedWorkerString "test" 8192)
      ∧ dynamicCastIn u (concreteTarget .templatedInt)
        (createHostTemplatedWorkerString "test" 8192) = none := by
  refine ⟨?_, by decide, rfl, rfl, rfl, rfl⟩
  cases o <;> cases v <;>
    simp_all [Obj.variant, dynamicCastIn, dynamicCast, concreteTarget]

/-- Witness for C5: casting the `TemplatedWorker<int>` instance of the
scenario to `SharedWorker`, in the host unit. -/
theorem castWrongVariantIsNull_witness :
    dynamicCastIn .host (concreteTarget .sharedWorker)
        (createHostTemplatedWorkerInt 123 4096) = none
      ∧ getTypeName (createHostTemplatedWorkerInt 123 4096)
        ≠ getTypeName (createHostTemplatedWorkerString "test" 8192)
      ∧ dynamicCastIn .host (concreteTarget .templatedInt)
        (createHostTemplatedWorkerInt 123 4096)
        = some (createHostTemplatedWorkerInt 123 4096)
      ∧ dynamicCastIn .host (concreteTarget .templatedString)
        (createHostTemplatedWorkerInt 123 4096) = none
      ∧ dynamicCastIn .host (concreteTarget .templatedString)
        (createHostTemplatedWorkerString "test" 8192)
        = some (createHostTemplatedWorkerString "test" 8192)
      ∧ dynamicCastIn .host (concreteTarget .templatedInt)
        (createHostTemplatedWorkerString "test" 8192) = none :=
  castWrongVariantIsNull .host (createHostTemplatedWorkerInt 123 4096)
    .sharedWorker (by decide)

/-- C3 counterexample: a `TemplatedWorker<int>` built with payload 123 whose
`m_data` member sits at address 4096 returns 4096 from `getValue`, not its
payload — `TemplatedWorker<T>::getValue` returns the truncated address of
`m_data`, so the claim that `value()` returns the constructed payload fails
for the templated variants. -/
theorem templatedGetValueNotPayload :
    getValue (Obj.templatedInt 123 "HOST" 4096) ≠ 123 := by decide

/-- C3 amended: `SharedWorker`'s `value()` returns the payload it was
constructed with (500 and 600 in the fixed scenario), while
`TemplatedWorker<T>`'s `value()` returns the 32-bit-truncated address of its
`m_data` member, independent of the payload. -/
theorem getValueSpec :
    (∀ v s, getValue (Obj.sharedWorker v s) = v)
      ∧ getValue (createHostSharedWorker 500) = 500
      ∧ getValue (createDLLSharedWorker 600) = 600
      ∧ (∀ d s a, getValue (Obj.templatedInt d s a) = toInt32 a)
      ∧ (∀ d s a, getValue (Obj.templatedString d s a) = toInt32 a)
      ∧ (∀ d d' s s' a,
          getValue (Obj.templatedInt d s a)
            = getValue (Obj.templatedInt d' s' a)) :=
  ⟨fun _ _ => rfl, rfl, rfl, fun _ _ _ => rfl, fun _ _ _ => rfl,
    fun _ _ _ _ _ => rfl⟩

/-- C4 counterexample: a `TemplatedWorker<int>` with payload -1 reports
`isReady() = true`, although -1 > 0 is false — `TemplatedWorker` does not
override `isReady`, so it inherits `AbstractWorker::isReady`, which returns
`true`; the claim that readiness is `v > 0` regardless of the variant
fails. -/
theorem templatedIsReadyNegativeTrue :
    isReady (Obj.templatedInt (-1) "HOST" 0) = true ∧ ¬((-1 : Int) > 0) := by
  decide

/-- C4 amended: `SharedWorker`'s `isReady()` returns `value > 0` — false for
payloads -1 and 0 and true for 1 and 500, in either unit — while the
`TemplatedWorker` variants inherit the `AbstractWorker` default and return
`true` for every payload. -/
theorem isReadySpec :
    (∀ v s, isReady (Obj.sharedWorker v s) = decide (v > 0))
      ∧ isReady (createHostSharedWorker (-1)) = false
      ∧ isReady (createHostSharedWorker 0) = false
      ∧ isReady (createHostSharedWorker 1) = true
      ∧ isReady (createHostSharedWorker 500) = true
      ∧ isReady (createDLLSharedWorker (-1)) = false
      ∧ isReady (createDLLSharedWorker 0) = false
      ∧ isReady (createDLLSharedWorker 1) = true
      ∧ isReady (createDLLSharedWorker 500) = true
      ∧ (∀ d s a, isReady (Obj.templatedInt d s a) = true)
      ∧ (∀ d s a, isReady (Obj.templatedString d s a) = true) :=
  ⟨fun _ _ => rfl, by decide, by decide, by decide, by decide, by decide,
    by decide, by decide, by decide, fun _ _ _ => rfl, fun _ _ _ => rfl⟩

/-- C6: every operation taking a possibly-null instance returns its
documented sentinel on null instead of failing: `testDynamicCast` returns
`false` (with no output), `test_dynamic_cast_c` returns 0, `getTypeInfo`
returns `"null"` (for every hash-code assignment), `get_type_name_c` returns
a null pointer, and `printObjectInfo`, `print_object_info_c` and
`destroy_dll_object_c` report or do nothing and return normally. -/
theorem nullInstanceSentinels :
    (testDynamicCast none).1 = false
      ∧ test_dynamic_cast_c none = 0
      ∧ (∀ h, getTypeInfo h none = "null")
      ∧ (∀ h, getHostTypeInfo h none = "null")
      ∧ get_type_name_c none = none
      ∧ (∀ h, printObjectInfo h none = ["DLL: Object is null"])
      ∧ (∀ h, print_object_info_c h none = ["DLL: Object is null"])
      ∧ destroy_dll_object_c none = PUnit.unit :=
  ⟨rfl, rfl, fun _ => rfl, fun _ => rfl, rfl, fun _ => rfl, fun _ => rfl,
    rfl⟩

/-- C7: `performAction` invoked through the base capability reference (the
unified vtable dispatch, which sees only the dynamic object) produces exactly
the output of the concrete variant's override invoked directly, and on every
instance it totally evaluates to exactly one output line — the embedding of
"performs an observable side effect and never throws". -/
theorem performActionDispatchCorrect :
    (∀ v s, performAction (Obj.sharedWorker v s)
        = SharedWorker.performAction v s)
      ∧ (∀ d s a, performAction (Obj.templatedInt d s a)
        = TemplatedWorker.performAction s)
      ∧ (∀ d s a, performAction (Obj.templatedString d s a)
        = TemplatedWorker.performAction s)
      ∧ (∀ o, (performAction o).length = 1) := by
  refine ⟨fun _ _ => rfl, fun _ _ _ => rfl, fun _ _ _ => rfl, fun o => ?_⟩
  cases o <;> rfl

/-- C8 counterexample: the host's and the DLL's weak definitions of
`Internal::getSharedFunctionResult` return different strings ("... from
HOST" versus "... from DLL"), and their definitions of
`Internal::performSharedOperation` write different lines at input 42, so the
two units' definitions are not equal as functions. -/
theorem weakFunctionDefinitionsDiffer :
    Internal.getSharedFunctionResultDLL ≠ Internal.getSharedFunctionResultHOST
      ∧ Internal.performSharedOperationDLL 42
        ≠ Internal.performSharedOperationHOST 42 := by
  decide

/-- C8 amended: the two units' weak definitions agree only up to the common
stem — both results of `getSharedFunctionResult` are
"Shared function result from " followed by the unit's name (the stem is all
the test suite's `WeakFunctionUnification` check requires) — but they differ
in the unit-name suffix, so weak linkage selects one of two observably
different definitions rather than collapsing two identical ones. -/
theorem weakFunctionCommonStem :
    Internal.getSharedFunctionResultDLL
        = "Shared function result from " ++ "DLL"
      ∧ Internal.getSharedFunctionResultHOST
        = "Shared function result from " ++ "HOST"
      ∧ Internal.getSharedFunctionResultDLL
        ≠ Internal.getSharedFunctionResultHOST := by
  refine ⟨by decide, by decide, by decide⟩

/-- C9 counterexample: two `TemplatedWorker<int>` instances with the same
payload 5 and different origin strings (and, as distinct live objects,
distinct `m_data` addresses) disagree on `value()`, which the claim lists
among the results that must be identical. -/
theorem templatedValueDependsOnAddress :
    getValue (Obj.templatedInt 5 "HOST" 4096)
      ≠ getValue (Obj.templatedInt 5 "DLL" 8192) := by decide

/-- C9 amended: the origin string influences no identity-relevant result —
replacing it changes nothing about `typeName()`, `value()`, `isReady()`,
same-runtime-type or checked-cast outcomes — and for `SharedWorker` two
instances with the same payload agree on all of these including `value()`;
for the `TemplatedWorker` variants two instances with the same payload agree
on `typeName()`, `isReady()`, same-runtime-type and cast outcomes, but
`value()` is the truncated address of the instance's `m_data` member, so it
differs between distinct instances regardless of origin. -/
theorem originNoninterference :
    (∀ o s, getTypeName (withSource o s) = getTypeName o
      ∧ getValue (withSource o s) = getValue o
      ∧ isReady (withSource o s) = isReady o
      ∧ (∀ o2, sameRuntimeType (withSource o s) o2 = sameRuntimeType o o2)
      ∧ (∀ u t, (dynamicCastIn u t (withSource o s)).isSome
          = (dynamicCastIn u t o).isSome))
      ∧ (∀ v s1 s2, getValue (Obj.sharedWorker v s1)
          = getValue (Obj.sharedWorker v s2)
        ∧ isReady (Obj.sharedWorker v s1) = isReady (Obj.sharedWorker v s2))
      ∧ (∀ d s1 s2 a1 a2,
          getTypeName (Obj.templatedInt d s1 a1)
            = getTypeName (Obj.templatedInt d s2 a2)
        ∧ isReady (Obj.templatedInt d s1 a1)
            = isReady (Obj.templatedInt d s2 a2)
        ∧ sameRuntimeType (Obj.templatedInt d s1 a1)
            (Obj.templatedInt d s2 a2) = true
        ∧ getValue (Obj.templatedInt d s1 a1) = toInt32 a1)
      ∧ (∀ d s1 s2 a1 a2,
          getTypeName (Obj.templatedString d s1 a1)
            = getTypeName (Obj.templatedString d s2 a2)
        ∧ sameRuntimeType (Obj.templatedString d s1 a1)
            (Obj.templatedString d s2 a2) = true
        ∧ getValue (Obj.templatedString d s1 a1) = toInt32 a1) := by
  refine ⟨fun o s => ⟨?_, ?_, ?_, fun o2 => ?_, fun u t => ?_⟩,
    fun v s1 s2 => ⟨rfl, rfl⟩,
    fun d s1 s2 a1 a2 => ⟨rfl, rfl, rfl, rfl⟩,
    fun d s1 s2 a1 a2 => ⟨rfl, rfl, rfl⟩⟩ <;>
    cases o <;>
    first
      | rfl
      | (cases t <;>
          simp [withSource, dynamicCastIn, dynamicCast, Obj.variant])

/-- C10: the duplicated verifier implementations of the two units are
equivalent as functions: on every possibly-null instance `testDynamicCast`'s
returned boolean equals `testHostDynamicCast`'s — true exactly when the
instance is non-null and casts to `AbstractWorker` — and `getTypeInfo` and
`getHostTypeInfo` return the same string for every hash-code assignment. -/
theorem duplicatedVerifiersEquivalent :
    (∀ o, (testDynamicCast o).1 = testHostDynamicCast o)
      ∧ (∀ h o, getTypeInfo h o = getHostTypeInfo h o)
      ∧ (∀ o, testHostDynamicCast (some o)
          = (dynamicCast .abstractWorker o).isSome)
      ∧ testHostDynamicCast none = false := by
  refine ⟨fun o => ?_, fun h o => ?_, fun o => rfl, rfl⟩
  · cases o <;> rfl
  · cases o <;> rfl

end WeakSymbolExample
